import Mathlib

/-!
Shallow embedding of the `ltv-node-monitor` state-reconciliation engine
(`src/monitor/monitor.py`, `src/monitor/marzban_api.py`).

Timestamps are modelled as rationals (`time.time()` values).  The Redis
store is modelled per node as an optional status string (`node_status:<id>`)
and an optional disconnect timestamp (`node_disconnect_time:<id>`); a key
that is absent is `none`.  Notifications sent through the Telegram notifier
are modelled as an `Event` list, carrying exactly the interpolated fields
the claims talk about.
-/

namespace NodeMonitorModel

/-- A notification delivered through `self.notifier.send_message`, identified
by its `Responses.get_message` template and the interpolated fields that the
spec's claims mention (human-readable timestamps are omitted). -/
inductive Event where
  | monitorFailure (errorMessage : String)
  | nodeDisconnected (nodeName nodeIp errorMessage : String)
  | nodeReconnected (nodeName nodeIp : String) (downtimeMinutes : ℚ)
  | nodeReconnectedAfterAttempts (nodeName nodeIp : String) (attemptCount : Nat)
  | nodeReconnectFailed (nodeName nodeIp errorMessage : String) (attemptCount : Nat)
  deriving DecidableEq, Repr

/-- Predicate for `ERROR_MONITOR_FAILURE` notifications. -/
def isMonitorFailure : Event → Bool
  | .monitorFailure _ => true
  | _ => false

/-- Predicate for `ERROR_NODE_DISCONNECTED` notifications. -/
def isNodeDisconnected : Event → Bool
  | .nodeDisconnected _ _ _ => true
  | _ => false

/-- Predicate for `ERROR_NODE_RECONNECT_FAILED` notifications. -/
def isReconnectFailed : Event → Bool
  | .nodeReconnectFailed _ _ _ _ => true
  | _ => false

/-- Number of `ERROR_MONITOR_FAILURE` notifications in an event list. -/
def countMonitorFailure (evs : List Event) : Nat := evs.countP isMonitorFailure

/-- Number of `ERROR_NODE_DISCONNECTED` notifications in an event list. -/
def countNodeDisconnected (evs : List Event) : Nat := evs.countP isNodeDisconnected

/-- Number of `ERROR_NODE_RECONNECT_FAILED` notifications in an event list. -/
def countReconnectFailed (evs : List Event) : Nat := evs.countP isReconnectFailed

/-- Round a rational to the nearest integer, ties to even, mirroring
Python's built-in `round` applied to an exactly represented value. -/
def roundHalfEven (q : ℚ) : ℤ :=
  let f := ⌊q⌋
  let r := q - f
  if r < 1 / 2 then f
  else if 1 / 2 < r then f + 1
  else if 2 ∣ f then f else f + 1

/-- Python's `round(x, 2)` on the model's exact rationals
(`monitor.py` line 124: `round(downtime / 60, 2)`). -/
def round2 (q : ℚ) : ℚ := (roundHalfEven (q * 100) : ℚ) / 100

/-- The per-node slice of the Redis store: value of `node_status:<id>`
and value of `node_disconnect_time:<id>`; `none` means the key is absent. -/
structure NodeRecord where
  statusVal : Option String
  disconnectTime : Option ℚ
  deriving DecidableEq, Repr

/-- Outcome of one iteration of the reconnect loop's `try` body
(`monitor.py` lines 168-198): either `reconnect_node`/`get_node` raised,
or the re-fetched node status is `status`. -/
inductive AttemptResult where
  | raised (msg : String)
  | fetched (status : String)
  deriving DecidableEq, Repr

/-- Result of the reconnect `for` loop: the node's Redis record afterwards,
events emitted, number of `reconnect_node` calls issued, and whether the
loop exited via `break` (suppressing the `for`-`else` clause). -/
structure LoopResult where
  record : NodeRecord
  events : List Event
  actions : Nat
  broke : Bool
  deriving DecidableEq, Repr

/-- The reconnect loop, `monitor.py` lines 167-198:
`for i in range(self.reconnect_attempts)` with attempt index `i`, `fuel`
iterations remaining, acting on redis record `st`.  On a re-fetched
`connected` status it notifies `SUCCESS_NODE_RECONNECTED_AFTER_ATTEMPTS`
with `i + 1`, deletes both keys and breaks; an exception is logged and the
loop proceeds to the next attempt. -/
def reconnectLoop (nodeName nodeIp : String) (att : Nat → AttemptResult) :
    Nat → Nat → NodeRecord → LoopResult
  | 0, _, st => ⟨st, [], 0, false⟩
  | fuel + 1, i, st =>
    match att i with
    | .fetched s =>
      if s = "connected" then
        ⟨⟨none, none⟩, [Event.nodeReconnectedAfterAttempts nodeName nodeIp (i + 1)], 1, true⟩
      else
        let r := reconnectLoop nodeName nodeIp att fuel (i + 1) st
        ⟨r.record, r.events, r.actions + 1, r.broke⟩
    | .raised _ =>
      let r := reconnectLoop nodeName nodeIp att fuel (i + 1) st
      ⟨r.record, r.events, r.actions + 1, r.broke⟩

/-- Result of handling one node in one cycle: the node's Redis record
afterwards, the events emitted, the number of `reconnect_node` actions
issued, and the number of writes to `node_disconnect_time:<id>`. -/
structure CycleResult where
  record : NodeRecord
  events : List Event
  reconnectActions : Nat
  timeKeyWrites : Nat
  deriving DecidableEq, Repr

/-- Per-node body of `NodeMonitor.monitor`, `monitor.py` lines 111-220,
after `get_node` succeeded with observed status `currentStatus` at time
`now`.  Lines 115-143: if the stored status is `"disconnected"` and the
node is observed `connected`, notify `SUCCESS_NODE_RECONNECTED` with the
downtime in rounded minutes when the disconnect timestamp is present, and
delete both keys either way.  Lines 146-220: for a non-`connected`,
non-`disabled` status, notify `ERROR_NODE_DISCONNECTED` and stamp the
disconnect time only when the stored status is not already
`"disconnected"`, then run the reconnect loop; if it never broke, notify
`ERROR_NODE_RECONNECT_FAILED` and set the stored status `"disconnected"`. -/
def processNode (reconnectAttempts : Nat) (nodeName nodeIp nodeMessage : String)
    (st : NodeRecord) (currentStatus : String) (now : ℚ)
    (att : Nat → AttemptResult) : CycleResult :=
  let recov :=
    if st.statusVal = some "disconnected" ∧ currentStatus = "connected" then
      match st.disconnectTime with
      | some t0 =>
        ((⟨none, none⟩ : NodeRecord),
         [Event.nodeReconnected nodeName nodeIp (round2 ((now - t0) / 60))])
      | none => ((⟨none, none⟩ : NodeRecord), ([] : List Event))
    else (st, [])
  let st1 := recov.1
  if currentStatus ≠ "connected" ∧ currentStatus ≠ "disabled" then
    let alert :=
      if st1.statusVal ≠ some "disconnected" then
        (({ st1 with disconnectTime := some now } : NodeRecord),
         [Event.nodeDisconnected nodeName nodeIp nodeMessage], 1)
      else (st1, ([] : List Event), 0)
    let r := reconnectLoop nodeName nodeIp att reconnectAttempts 0 alert.1
    if r.broke then
      ⟨r.record, recov.2 ++ alert.2.1 ++ r.events, r.actions, alert.2.2⟩
    else
      ⟨{ r.record with statusVal := some "disconnected" },
       recov.2 ++ alert.2.1 ++ r.events
         ++ [Event.nodeReconnectFailed nodeName nodeIp nodeMessage reconnectAttempts],
       r.actions, alert.2.2⟩
  else
    ⟨st1, recov.2, 0, 0⟩

/-- The inputs one monitoring cycle presents for a single node: the status
observed by the main-loop `get_node` call (`monitor.py` line 99), the
`time.time()` value for this cycle, and the outcome of each reconnect
attempt. -/
structure CycleInput where
  currentStatus : String
  now : ℚ
  att : Nat → AttemptResult

/-- Result of running several consecutive cycles on one node: final record,
the events of each cycle (in order), and the total number of writes to
`node_disconnect_time:<id>`. -/
structure RunResult where
  record : NodeRecord
  cycleEvents : List (List Event)
  timeKeyWrites : Nat
  deriving DecidableEq, Repr

/-- Consecutive monitoring cycles for one node: iterate `processNode`
over the cycle inputs, threading the Redis record. -/
def runCycles (ra : Nat) (nodeName nodeIp nodeMessage : String) :
    NodeRecord → List CycleInput → RunResult
  | st, [] => ⟨st, [], 0⟩
  | st, c :: cs =>
    let r := processNode ra nodeName nodeIp nodeMessage st c.currentStatus c.now c.att
    let rest := runCycles ra nodeName nodeIp nodeMessage r.record cs
    ⟨rest.record, r.events :: rest.cycleEvents, r.timeKeyWrites + rest.timeKeyWrites⟩

/-- Outcome of the main-loop `get_node` call for a node
(`monitor.py` lines 98-109). -/
inductive FetchResult where
  | timeout
  | raised (msg : String)
  | ok (status : String)
  deriving DecidableEq, Repr

/-- One node as a cycle sees it: identity, the fields interpolated into
notifications, the `get_node` outcome, whether the first Redis access in
its handling raises (`storeFail = some msg` models the backing store being
unreachable at `monitor.py` line 116, which no per-node handler catches),
the cycle time, and the reconnect-attempt outcomes. -/
structure NodeInput where
  id : String
  name : String
  ip : String
  message : String
  fetch : FetchResult
  storeFail : Option String
  now : ℚ
  att : Nat → AttemptResult

/-- The `for node in nodes` loop, `monitor.py` lines 86-220, over a store
mapping node ids to records.  A `get_node` timeout or exception is logged
and the node skipped (lines 100-109).  A Redis failure in a node's handling
is uncaught there, so it aborts the loop and propagates (third component
`some msg`). -/
def processNodesLoop (ra : Nat) : List NodeInput → (String → NodeRecord) →
    (String → NodeRecord) × List Event × Option String
  | [], st => (st, [], none)
  | n :: ns, st =>
    match n.fetch with
    | .timeout => processNodesLoop ra ns st
    | .raised _ => processNodesLoop ra ns st
    | .ok status =>
      match n.storeFail with
      | some m => (st, [], some m)
      | none =>
        let r := processNode ra n.name n.ip n.message (st n.id) status n.now n.att
        let rest := processNodesLoop ra ns fun k => if k = n.id then r.record else st k
        (rest.1, r.events ++ rest.2.1, rest.2.2)

/-- Outcome of `self.api.get_nodes()` at the top of a cycle
(`monitor.py` lines 56-84). -/
inductive ListNodesResult where
  | timeout
  | failure (msg : String)
  | ok (nodes : List NodeInput)

/-- Result of one iteration of the `while True` body: the store afterwards,
the events emitted, and whether the monitor slept the full
`sleep_interval` before the next cycle begins. -/
structure MonitorCycleResult where
  store : String → NodeRecord
  events : List Event
  sleptFullInterval : Bool

/-- One iteration of the `while True` body of `NodeMonitor.monitor`,
`monitor.py` lines 51-234.  A `get_nodes` timeout or exception notifies
`ERROR_MONITOR_FAILURE` and sleeps `sleep_interval` before `continue`
(lines 61-84).  A completed node loop is followed by the line-222 sleep.
An exception escaping the node loop reaches the `except` at line 224,
which notifies `ERROR_MONITOR_FAILURE` and starts the next cycle without
sleeping. -/
def monitorCycle (ra : Nat) (st : String → NodeRecord) :
    ListNodesResult → MonitorCycleResult
  | .timeout => ⟨st, [Event.monitorFailure "Timeout while retrieving nodes"], true⟩
  | .failure m => ⟨st, [Event.monitorFailure m], true⟩
  | .ok nodes =>
    match processNodesLoop ra nodes st with
    | (st1, evs, none) => ⟨st1, evs, true⟩
    | (st1, evs, some m) => ⟨st1, evs ++ [Event.monitorFailure m], false⟩

/-- The token-bearing fields of `POST /admin/token`'s JSON response
(`marzban_api.py` lines 57-60): `access_token`, and `expires_in` when the
field is present (`token_data.get("expires_in", 3600)` defaults it). -/
structure AuthResponse where
  accessToken : String
  expiresIn : Option ℚ
  deriving Repr

/-- The cached credential in Redis: the values of `marzban_access_token`
and `marzban_token_expiry`, `none` when absent. -/
structure TokenCache where
  token : Option String
  expiry : Option ℚ
  deriving DecidableEq, Repr

/-- `MarzbanAPI.authenticate`, `marzban_api.py` lines 44-73, on a
successful upstream response at time `now`: issues
`redis.set(key, token, ex=expires_in)` (line 62), then stores
`time.time() + expires_in` as the expiry and returns the token.  Redis
rejects a non-positive `EX`, so for `expires_in <= 0` the line-62 `set`
raises a `ResponseError`, which `except httpx.HTTPError` does not catch:
`authenticate` raises instead of returning, modelled as `none`.  (Redis
also rejects a non-integer `EX`; that raises on strictly more inputs and
can only remove returning cases whose expiry `now + expires_in` is
already in the future, so the model keeps rational times and checks only
positivity.) -/
def authenticate (now : ℚ) (resp : AuthResponse) : Option (TokenCache × String) :=
  let expiresIn := resp.expiresIn.getD 3600
  if 0 < expiresIn then
    some (⟨some resp.accessToken, some (now + expiresIn)⟩, resp.accessToken)
  else none

/-- `MarzbanAPI.get_cached_token`, `marzban_api.py` lines 29-42, at time
`now`: return the cached token while `time.time() < float(expiry)`,
otherwise re-authenticate (with `resp` the upstream response that call
would receive).  When `authenticate` raises a `RedisError` from inside the
`try`, the line-40 handler merely calls `authenticate` again with the same
outcome, so a raising `authenticate` makes `get_cached_token` raise
(`none`) as well. -/
def get_cached_token (cache : TokenCache) (now : ℚ) (resp : AuthResponse) :
    Option (TokenCache × String) :=
  match cache.token, cache.expiry with
  | some t, some e => if now < e then some (cache, t) else authenticate now resp
  | some _, none => authenticate now resp
  | none, _ => authenticate now resp

/-! ### Helper lemmas about the reconnect loop -/

/-- If no attempt in range re-fetches `connected`, the loop runs all its
iterations, leaves the record untouched, emits nothing and does not break. -/
lemma reconnectLoop_all_fail (nodeName nodeIp : String) (att : Nat → AttemptResult) :
    ∀ fuel i st, (∀ k, k < fuel → att (i + k) ≠ AttemptResult.fetched "connected") →
      reconnectLoop nodeName nodeIp att fuel i st = ⟨st, [], fuel, false⟩
  | 0, _, _, _ => rfl
  | fuel + 1, i, st, h => by
    have h0 : att i ≠ AttemptResult.fetched "connected" := by
      have := h 0 (Nat.succ_pos _)
      simpa using this
    have ih := reconnectLoop_all_fail nodeName nodeIp att fuel (i + 1) st
      (fun k hk => by
        have hk1 : i + 1 + k = i + (k + 1) := by omega
        rw [hk1]
        exact h (k + 1) (by omega))
    cases hatt : att i with
    | raised m => simp [reconnectLoop, hatt, ih]
    | fetched s =>
      have hs : s ≠ "connected" := fun hs => h0 (by rw [hatt, hs])
      simp [reconnectLoop, hatt, hs, ih]

/-- The loop never issues more `reconnect_node` actions than it has
iterations. -/
lemma reconnectLoop_actions_le (nodeName nodeIp : String) (att : Nat → AttemptResult) :
    ∀ fuel i st, (reconnectLoop nodeName nodeIp att fuel i st).actions ≤ fuel
  | 0, _, _ => Nat.le_refl _
  | fuel + 1, i, st => by
    have ih := reconnectLoop_actions_le nodeName nodeIp att fuel (i + 1) st
    cases hatt : att i with
    | raised m => simp [reconnectLoop, hatt]; omega
    | fetched s =>
      by_cases hs : s = "connected"
      · simp [reconnectLoop, hatt, hs]
      · simp [reconnectLoop, hatt, hs]; omega

/-- The action count of the loop does not depend on the starting record. -/
lemma reconnectLoop_actions_st (nodeName nodeIp : String) (att : Nat → AttemptResult) :
    ∀ fuel i st st',
      (reconnectLoop nodeName nodeIp att fuel i st).actions
        = (reconnectLoop nodeName nodeIp att fuel i st').actions
  | 0, _, _, _ => rfl
  | fuel + 1, i, st, st' => by
    have ih := reconnectLoop_actions_st nodeName nodeIp att fuel (i + 1) st st'
    cases hatt : att i with
    | raised m => simp [reconnectLoop, hatt, ih]
    | fetched s =>
      by_cases hs : s = "connected"
      · simp [reconnectLoop, hatt, hs]
      · simp [reconnectLoop, hatt, hs, ih]

/-- If attempt `j` (zero-based, within range) is the first to re-fetch
`connected`, the loop issues exactly `j + 1` actions. -/
lemma reconnectLoop_first_connected (nodeName nodeIp : String) (att : Nat → AttemptResult) :
    ∀ fuel i st j, j < fuel →
      att (i + j) = AttemptResult.fetched "connected" →
      (∀ k, k < j → att (i + k) ≠ AttemptResult.fetched "connected") →
      (reconnectLoop nodeName nodeIp att fuel i st).actions = j + 1
  | 0, _, _, j, hj, _, _ => absurd hj (Nat.not_lt_zero j)
  | fuel + 1, i, st, 0, _, hconn, _ => by
    have h0 : att i = AttemptResult.fetched "connected" := by simpa using hconn
    simp [reconnectLoop, h0]
  | fuel + 1, i, st, j + 1, hj, hconn, hfirst => by
    have h0 : att i ≠ AttemptResult.fetched "connected" := by
      have := hfirst 0 (Nat.succ_pos _)
      simpa using this
    have ih := reconnectLoop_first_connected nodeName nodeIp att fuel (i + 1) st j
      (by omega)
      (by
        have hk1 : i + 1 + j = i + (j + 1) := by omega
        rw [hk1]; exact hconn)
      (fun k hk => by
        have hk1 : i + 1 + k = i + (k + 1) := by omega
        rw [hk1]; exact hfirst (k + 1) (by omega))
    cases hatt : att i with
    | raised m => simp [reconnectLoop, hatt, ih]
    | fetched s =>
      have hs : s ≠ "connected" := fun hs => h0 (by rw [hatt, hs])
      simp [reconnectLoop, hatt, hs, ih]

/-! ### Helper lemmas about per-node cycle handling -/

/-- A cycle that sees a non-`connected`, non-`disabled` status on a node
already stored as `disconnected`, with every reconnect attempt failing:
one `NodeReconnectFailed`, stored status re-set to `disconnected`, stored
disconnect time untouched, no disconnect alert, no time-key write. -/
lemma processNode_already_disconnected_exhausted (ra : Nat)
    (nodeName nodeIp nodeMessage : String) (st : NodeRecord) (cur : String)
    (now : ℚ) (att : Nat → AttemptResult)
    (hc : cur ≠ "connected") (hd : cur ≠ "disabled")
    (hs : st.statusVal = some "disconnected")
    (hf : ∀ k, k < ra → att k ≠ AttemptResult.fetched "connected") :
    processNode ra nodeName nodeIp nodeMessage st cur now att
      = ⟨⟨some "disconnected", st.disconnectTime⟩,
         [Event.nodeReconnectFailed nodeName nodeIp nodeMessage ra], ra, 0⟩ := by
  obtain ⟨sv, dt⟩ := st
  simp only [NodeRecord.statusVal] at hs
  subst hs
  have hloop := reconnectLoop_all_fail nodeName nodeIp att ra 0
    (⟨some "disconnected", dt⟩ : NodeRecord)
    (fun k hk => by simpa using hf k hk)
  simp [processNode, hc, hd, hloop]

/-- A cycle that sees a non-`connected`, non-`disabled` status on a node
not stored as `disconnected`, with every reconnect attempt failing: one
`NodeDisconnected` alert, one write stamping the disconnect time with
`now`, then one `NodeReconnectFailed` and stored status `disconnected`. -/
lemma processNode_fresh_exhausted (ra : Nat)
    (nodeName nodeIp nodeMessage : String) (st : NodeRecord) (cur : String)
    (now : ℚ) (att : Nat → AttemptResult)
    (hc : cur ≠ "connected") (hd : cur ≠ "disabled")
    (hs : st.statusVal ≠ some "disconnected")
    (hf : ∀ k, k < ra → att k ≠ AttemptResult.fetched "connected") :
    processNode ra nodeName nodeIp nodeMessage st cur now att
      = ⟨⟨some "disconnected", some now⟩,
         [Event.nodeDisconnected nodeName nodeIp nodeMessage,
          Event.nodeReconnectFailed nodeName nodeIp nodeMessage ra], ra, 1⟩ := by
  obtain ⟨sv, dt⟩ := st
  simp only [NodeRecord.statusVal] at hs
  have hloop := reconnectLoop_all_fail nodeName nodeIp att ra 0
    (⟨sv, some now⟩ : NodeRecord)
    (fun k hk => by simpa using hf k hk)
  simp [processNode, hc, hd, hs, hloop]

/-! ### Claim theorems -/

/-- C8: a node observed `disabled` in a cycle, whatever its stored record,
triggers no `NodeDisconnected` alert and no `ReconnectNode` action — its
handling emits nothing, issues no action, writes nothing and leaves the
record unchanged. -/
theorem disabled_node_never_alerts_or_reconnects (ra : Nat)
    (nodeName nodeIp nodeMessage : String) (st : NodeRecord) (now : ℚ)
    (att : Nat → AttemptResult) :
    processNode ra nodeName nodeIp nodeMessage st "disabled" now att
      = ⟨st, [], 0, 0⟩ := by
  simp [processNode]

/-- C10: a node stored as `disconnected` but with no stored disconnect
timestamp, observed `connected`, has both keys deleted and no
`NodeReconnected` notification emitted. -/
theorem stale_disconnected_record_cleared_silently (ra : Nat)
    (nodeName nodeIp nodeMessage : String) (now : ℚ) (att : Nat → AttemptResult) :
    processNode ra nodeName nodeIp nodeMessage ⟨some "disconnected", none⟩ "connected" now att
      = ⟨⟨none, none⟩, [], 0, 0⟩ := by
  simp [processNode]

/-- C2: a node stored as `disconnected` with disconnect timestamp `t0`,
observed `connected` at time `t1`, yields exactly one `NodeReconnected`
notification whose downtime is `(t1 - t0)` in minutes rounded to two
decimals, and both stored keys are deleted in the same handling. -/
theorem reconnect_downtime_and_record_deletion (ra : Nat)
    (nodeName nodeIp nodeMessage : String) (st : NodeRecord) (t0 t1 : ℚ)
    (att : Nat → AttemptResult)
    (hs : st.statusVal = some "disconnected") (ht : st.disconnectTime = some t0) :
    processNode ra nodeName nodeIp nodeMessage st "connected" t1 att
      = ⟨⟨none, none⟩,
         [Event.nodeReconnected nodeName nodeIp (round2 ((t1 - t0) / 60))], 0, 0⟩ := by
  obtain ⟨sv, dt⟩ := st
  simp only [NodeRecord.statusVal] at hs
  simp only [NodeRecord.disconnectTime] at ht
  subst hs; subst ht
  simp [processNode]

/-- Witness for C2 at `t0 = 60`, `t1 = 180`. -/
theorem reconnect_downtime_and_record_deletion_witness :
    processNode 3 "node1" "ip1" "msg1" ⟨some "disconnected", some 60⟩ "connected" 180
        (fun _ => AttemptResult.raised "e")
      = ⟨⟨none, none⟩,
         [Event.nodeReconnected "node1" "ip1" (round2 ((180 - 60) / 60))], 0, 0⟩ :=
  reconnect_downtime_and_record_deletion 3 "node1" "ip1" "msg1"
    ⟨some "disconnected", some 60⟩ 60 180 (fun _ => AttemptResult.raised "e") rfl rfl

/-- C7: a cycle whose recovery sub-procedure exhausts all attempts without
re-fetching `connected`, on a node whose stored record exists, emits
exactly one `NodeReconnectFailed`, sets the stored status to
`disconnected`, and leaves the stored disconnect timestamp at its original
value (no time-key write occurs). -/
theorem exhausted_attempts_one_failure_frame (ra : Nat)
    (nodeName nodeIp nodeMessage : String) (st : NodeRecord) (cur : String)
    (now : ℚ) (att : Nat → AttemptResult)
    (hc : cur ≠ "connected") (hd : cur ≠ "disabled")
    (hs : st.statusVal = some "disconnected")
    (hf : ∀ k, k < ra → att k ≠ AttemptResult.fetched "connected") :
    processNode ra nodeName nodeIp nodeMessage st cur now att
      = ⟨⟨some "disconnected", st.disconnectTime⟩,
         [Event.nodeReconnectFailed nodeName nodeIp nodeMessage ra], ra, 0⟩ :=
  processNode_already_disconnected_exhausted ra nodeName nodeIp nodeMessage st cur now att
    hc hd hs hf

/-- Witness for C7 with two attempts, both raising. -/
theorem exhausted_attempts_one_failure_frame_witness :
    processNode 2 "n" "ip" "m" ⟨some "disconnected", some 7⟩ "error" 99
        (fun _ => AttemptResult.raised "x")
      = ⟨⟨some "disconnected", some 7⟩, [Event.nodeReconnectFailed "n" "ip" "m" 2], 2, 0⟩ :=
  exhausted_attempts_one_failure_frame 2 "n" "ip" "m" ⟨some "disconnected", some 7⟩
    "error" 99 (fun _ => AttemptResult.raised "x") (by decide) (by decide) rfl (by decide)

/-- C6: whenever the recovery sub-procedure runs (observed status neither
`connected` nor `disabled`), at most `reconnect_attempts` reconnect
actions are issued, and if attempt `j` is the first whose re-fetched
status is `connected`, exactly `j + 1` actions are issued. -/
theorem reconnect_bounded_and_stops_on_connected (ra : Nat)
    (nodeName nodeIp nodeMessage : String) (st : NodeRecord) (cur : String)
    (now : ℚ) (att : Nat → AttemptResult)
    (hc : cur ≠ "connected") (hd : cur ≠ "disabled") :
    (processNode ra nodeName nodeIp nodeMessage st cur now att).reconnectActions ≤ ra ∧
    ∀ j, j < ra → att j = AttemptResult.fetched "connected" →
      (∀ k, k < j → att k ≠ AttemptResult.fetched "connected") →
      (processNode ra nodeName nodeIp nodeMessage st cur now att).reconnectActions = j + 1 := by
  have hact : (processNode ra nodeName nodeIp nodeMessage st cur now att).reconnectActions
      = (reconnectLoop nodeName nodeIp att ra 0 st).actions := by
    obtain ⟨sv, dt⟩ := st
    simp only [processNode, hc, hd]
    simp only [ne_eq, hc, and_true, if_neg, ite_false, not_false_iff, and_self, if_pos]
    by_cases hsv : sv = some "disconnected" <;>
      simp [hc, hd, hsv] <;> split <;>
      simp [reconnectLoop_actions_st nodeName nodeIp att ra 0 _ (⟨sv, dt⟩ : NodeRecord)]
  constructor
  · rw [hact]; exact reconnectLoop_actions_le nodeName nodeIp att ra 0 st
  · intro j hj hconn hfirst
    rw [hact]
    exact reconnectLoop_first_connected nodeName nodeIp att ra 0 st j hj
      (by simpa using hconn) (fun k hk => by simpa using hfirst k hk)

/-- Witness for C6: three attempts allowed, the second re-fetches
`connected`, so exactly two actions are issued. -/
theorem reconnect_bounded_and_stops_on_connected_witness :
    (processNode 3 "n" "ip" "m" ⟨none, none⟩ "connecting" 0
        (fun i => if i = 1 then AttemptResult.fetched "connected"
                  else AttemptResult.raised "e")).reconnectActions ≤ 3 ∧
    (processNode 3 "n" "ip" "m" ⟨none, none⟩ "connecting" 0
        (fun i => if i = 1 then AttemptResult.fetched "connected"
                  else AttemptResult.raised "e")).reconnectActions = 2 :=
  ⟨(reconnect_bounded_and_stops_on_connected 3 "n" "ip" "m" ⟨none, none⟩ "connecting" 0
      (fun i => if i = 1 then AttemptResult.fetched "connected"
                else AttemptResult.raised "e") (by decide) (by decide)).1,
   (reconnect_bounded_and_stops_on_connected 3 "n" "ip" "m" ⟨none, none⟩ "connecting" 0
      (fun i => if i = 1 then AttemptResult.fetched "connected"
                else AttemptResult.raised "e") (by decide) (by decide)).2
     1 (by decide) (by decide) (by decide)⟩

/-- Cycles on a node already stored `disconnected`, each observing a
non-`connected`, non-`disabled` status with no reconnect attempt
re-fetching `connected`: every cycle emits just one `NodeReconnectFailed`,
the record keeps status `disconnected` and its disconnect time, and the
time key is never written. -/
lemma runCycles_already_disconnected (ra : Nat) (nodeName nodeIp nodeMessage : String) :
    ∀ (cs : List CycleInput) (st : NodeRecord),
      st.statusVal = some "disconnected" →
      (∀ d ∈ cs, d.currentStatus ≠ "connected" ∧ d.currentStatus ≠ "disabled" ∧
        ∀ k, k < ra → d.att k ≠ AttemptResult.fetched "connected") →
      runCycles ra nodeName nodeIp nodeMessage st cs
        = ⟨⟨some "disconnected", st.disconnectTime⟩,
           cs.map fun _ => [Event.nodeReconnectFailed nodeName nodeIp nodeMessage ra],
           0⟩
  | [], st, hs, _ => by
    obtain ⟨sv, dt⟩ := st
    simp only [NodeRecord.statusVal] at hs
    subst hs
    simp [runCycles]
  | c :: cs, st, hs, hall => by
    obtain ⟨hc, hd, hf⟩ := hall c (List.mem_cons_self c cs)
    have hstep := processNode_already_disconnected_exhausted ra nodeName nodeIp nodeMessage
      st c.currentStatus c.now c.att hc hd hs hf
    have ih := runCycles_already_disconnected ra nodeName nodeIp nodeMessage cs
      (⟨some "disconnected", st.disconnectTime⟩ : NodeRecord) rfl
      (fun d hd => hall d (List.mem_cons_of_mem c hd))
    simp [runCycles, hstep, ih]

/-- A list of cycles each contributing only the `NodeReconnectFailed`
notification contributes no `NodeDisconnected` alert. -/
lemma countNodeDisconnected_join_fail (nodeName nodeIp nodeMessage : String) (ra : Nat) :
    ∀ (cs : List CycleInput),
      countNodeDisconnected
        ((cs.map fun _ =>
          [Event.nodeReconnectFailed nodeName nodeIp nodeMessage ra]).flatten) = 0
  | [] => rfl
  | c :: cs => by
    have ih := countNodeDisconnected_join_fail nodeName nodeIp nodeMessage ra cs
    simp only [List.map_cons, List.flatten_cons, countNodeDisconnected, List.countP_append]
    simp [countNodeDisconnected] at ih
    simp [isNodeDisconnected, ih]

/-- C1: a run of consecutive cycles all observing the same non-`connected`,
non-`disabled` status `s` on a node (no observation during the run —
main-loop or reconnect re-fetch — is `connected`), starting from a record
not stored `disconnected`: the first cycle emits the single
`NodeDisconnected` alert of the run and performs the single write of the
disconnect timestamp, which retains the first cycle's time to the end. -/
theorem idempotent_disconnect_alerting (ra : Nat)
    (nodeName nodeIp nodeMessage : String) (st0 : NodeRecord) (s : String)
    (c : CycleInput) (cs : List CycleInput)
    (hsc : s ≠ "connected") (hsd : s ≠ "disabled")
    (h0 : st0.statusVal ≠ some "disconnected")
    (hall : ∀ d ∈ c :: cs, d.currentStatus = s ∧
      ∀ k, k < ra → d.att k ≠ AttemptResult.fetched "connected") :
    runCycles ra nodeName nodeIp nodeMessage st0 (c :: cs)
      = ⟨⟨some "disconnected", some c.now⟩,
         [Event.nodeDisconnected nodeName nodeIp nodeMessage,
          Event.nodeReconnectFailed nodeName nodeIp nodeMessage ra]
           :: (cs.map fun _ => [Event.nodeReconnectFailed nodeName nodeIp nodeMessage ra]),
         1⟩ ∧
    countNodeDisconnected
      ((runCycles ra nodeName nodeIp nodeMessage st0 (c :: cs)).cycleEvents.flatten) = 1 := by
  obtain ⟨hcs, hcf⟩ := hall c (List.mem_cons_self c cs)
  have hstep := processNode_fresh_exhausted ra nodeName nodeIp nodeMessage st0 c.currentStatus
    c.now c.att (by rw [hcs]; exact hsc) (by rw [hcs]; exact hsd) h0 hcf
  have hrest := runCycles_already_disconnected ra nodeName nodeIp nodeMessage cs
    (⟨some "disconnected", some c.now⟩ : NodeRecord) rfl
    (fun d hd => by
      obtain ⟨hds, hdf⟩ := hall d (List.mem_cons_of_mem c hd)
      exact ⟨by rw [hds]; exact hsc, by rw [hds]; exact hsd, hdf⟩)
  have heq : runCycles ra nodeName nodeIp nodeMessage st0 (c :: cs)
      = ⟨⟨some "disconnected", some c.now⟩,
         [Event.nodeDisconnected nodeName nodeIp nodeMessage,
          Event.nodeReconnectFailed nodeName nodeIp nodeMessage ra]
           :: (cs.map fun _ => [Event.nodeReconnectFailed nodeName nodeIp nodeMessage ra]),
         1⟩ := by
    simp [runCycles, hstep, hrest]
  refine ⟨heq, ?_⟩
  rw [heq]
  have hjoin := countNodeDisconnected_join_fail nodeName nodeIp nodeMessage ra cs
  simp only [RunResult.cycleEvents, List.flatten_cons, countNodeDisconnected,
    List.countP_append, List.countP_cons] at hjoin ⊢
  simp [isNodeDisconnected, countNodeDisconnected] at hjoin ⊢

/-- Witness for C1: two cycles observing `error`, one attempt per cycle,
all attempts raising, starting from an absent record. -/
theorem idempotent_disconnect_alerting_witness :
    runCycles 1 "n" "ip" "m" ⟨none, none⟩
        [⟨"error", 5, fun _ => AttemptResult.raised "x"⟩,
         ⟨"error", 35, fun _ => AttemptResult.raised "x"⟩]
      = ⟨⟨some "disconnected", some 5⟩,
         [[Event.nodeDisconnected "n" "ip" "m", Event.nodeReconnectFailed "n" "ip" "m" 1],
          [Event.nodeReconnectFailed "n" "ip" "m" 1]],
         1⟩ ∧
    countNodeDisconnected
      ((runCycles 1 "n" "ip" "m" ⟨none, none⟩
        [⟨"error", 5, fun _ => AttemptResult.raised "x"⟩,
         ⟨"error", 35, fun _ => AttemptResult.raised "x"⟩]).cycleEvents.flatten) = 1 :=
  idempotent_disconnect_alerting 1 "n" "ip" "m" ⟨none, none⟩ "error"
    ⟨"error", 5, fun _ => AttemptResult.raised "x"⟩
    [⟨"error", 35, fun _ => AttemptResult.raised "x"⟩]
    (by decide) (by decide) (by decide)
    (by
      intro d hd
      simp only [List.mem_cons, List.mem_singleton] at hd
      rcases hd with h | h | h
      · subst h; exact ⟨rfl, by decide⟩
      · subst h; exact ⟨rfl, by decide⟩
      · exact absurd h (by simp))

/-- Counterexample to C5: with `reconnect_attempts = 2`, a node observed
`connecting` for 4 cycles with every reconnect action failing emits
exactly one `NodeReconnectFailed` notification in cycle 2 (carrying the
attempt count 2 as a message field), not two notifications. -/
theorem connecting_scenario_counterexample :
    countReconnectFailed ((runCycles 2 "C" "ip" "m" ⟨none, none⟩
        [⟨"connecting", 0, fun _ => AttemptResult.raised "e"⟩,
         ⟨"connecting", 30, fun _ => AttemptResult.raised "e"⟩,
         ⟨"connecting", 60, fun _ => AttemptResult.raised "e"⟩,
         ⟨"connecting", 90, fun _ => AttemptResult.raised "e"⟩]).cycleEvents.getD 1 []) = 1 ∧
    ¬ countReconnectFailed ((runCycles 2 "C" "ip" "m" ⟨none, none⟩
        [⟨"connecting", 0, fun _ => AttemptResult.raised "e"⟩,
         ⟨"connecting", 30, fun _ => AttemptResult.raised "e"⟩,
         ⟨"connecting", 60, fun _ => AttemptResult.raised "e"⟩,
         ⟨"connecting", 90, fun _ => AttemptResult.raised "e"⟩]).cycleEvents.getD 1 []) = 2 :=
  ⟨by decide, by decide⟩

/-- C5 (amended): node observed `connecting` for 4 cycles with
`reconnect_attempts = 2` and every reconnect action failing: one
disconnect alert in cycle 1, and exactly one `NodeReconnectFailed`
notification per cycle in every cycle 1-4 (each reporting the attempt
count 2), with the stored record `disconnected` after every cycle and the
disconnect time stamped once at cycle 1. -/
theorem connecting_scenario_amended :
    runCycles 2 "C" "ip" "m" ⟨none, none⟩
        [⟨"connecting", 0, fun _ => AttemptResult.raised "e"⟩,
         ⟨"connecting", 30, fun _ => AttemptResult.raised "e"⟩,
         ⟨"connecting", 60, fun _ => AttemptResult.raised "e"⟩,
         ⟨"connecting", 90, fun _ => AttemptResult.raised "e"⟩]
      = ⟨⟨some "disconnected", some 0⟩,
         [[Event.nodeDisconnected "C" "ip" "m", Event.nodeReconnectFailed "C" "ip" "m" 2],
          [Event.nodeReconnectFailed "C" "ip" "m" 2],
          [Event.nodeReconnectFailed "C" "ip" "m" 2],
          [Event.nodeReconnectFailed "C" "ip" "m" 2]], 1⟩ ∧
    (runCycles 2 "C" "ip" "m" ⟨none, none⟩
        [⟨"connecting", 0, fun _ => AttemptResult.raised "e"⟩]).record.statusVal
      = some "disconnected" ∧
    (runCycles 2 "C" "ip" "m" ⟨none, none⟩
        [⟨"connecting", 0, fun _ => AttemptResult.raised "e"⟩,
         ⟨"connecting", 30, fun _ => AttemptResult.raised "e"⟩]).record.statusVal
      = some "disconnected" ∧
    (runCycles 2 "C" "ip" "m" ⟨none, none⟩
        [⟨"connecting", 0, fun _ => AttemptResult.raised "e"⟩,
         ⟨"connecting", 30, fun _ => AttemptResult.raised "e"⟩,
         ⟨"connecting", 60, fun _ => AttemptResult.raised "e"⟩]).record.statusVal
      = some "disconnected" :=
  ⟨by decide, by decide, by decide, by decide⟩

/-- C9: whenever `get_cached_token` returns a token, the expiry recorded
for it is strictly in the future at the moment of return, for every
`expires_in` value the upstream authentication response may carry: a
non-positive value makes the store reject the TTL and `authenticate`
raise instead of returning, a positive value yields `now + expires_in`,
and the cached path is guarded by its own expiry check. -/
theorem token_expiry_in_future (cache : TokenCache) (now : ℚ) (resp : AuthResponse)
    (c2 : TokenCache) (tok : String) (e : ℚ)
    (hret : get_cached_token cache now resp = some (c2, tok))
    (he : c2.expiry = some e) :
    now < e := by
  have hauth : authenticate now resp = some (c2, tok) → now < e := by
    intro h
    simp only [authenticate] at h
    by_cases hpos : 0 < resp.expiresIn.getD 3600
    · rw [if_pos hpos] at h
      simp only [Option.some.injEq, Prod.mk.injEq] at h
      obtain ⟨h1, _⟩ := h
      rw [← h1] at he
      simp only [Option.some.injEq] at he
      rw [← he]
      linarith
    · rw [if_neg hpos] at h
      exact absurd h (by simp)
  obtain ⟨tokc, exp⟩ := cache
  cases tokc with
  | none => exact hauth (by simpa [get_cached_token] using hret)
  | some t =>
    cases exp with
    | none => exact hauth (by simpa [get_cached_token] using hret)
    | some e0 =>
      simp only [get_cached_token] at hret
      by_cases hlt : now < e0
      · rw [if_pos hlt] at hret
        simp only [Option.some.injEq, Prod.mk.injEq] at hret
        obtain ⟨h1, _⟩ := hret
        rw [← h1] at he
        simp only [Option.some.injEq] at he
        rw [← he]
        exact hlt
      · rw [if_neg hlt] at hret
        exact hauth hret

/-- Witness for C9: empty cache, `now = 0`, `expires_in = 1`; the call
returns and the recorded expiry `1` is in the future. -/
theorem token_expiry_in_future_witness : (0 : ℚ) < 1 :=
  token_expiry_in_future ⟨none, none⟩ 0 ⟨"t", some 1⟩ ⟨some "t", some 1⟩ "t" 1
    (by simp [get_cached_token, authenticate]) rfl

/-! ### Helper lemmas about the whole-cycle loop -/

/-- The reconnect loop never emits an `ERROR_MONITOR_FAILURE`. -/
lemma reconnectLoop_no_monitorFailure (nodeName nodeIp : String) (att : Nat → AttemptResult) :
    ∀ fuel i st,
      List.countP isMonitorFailure (reconnectLoop nodeName nodeIp att fuel i st).events = 0
  | 0, _, _ => rfl
  | fuel + 1, i, st => by
    have ih := reconnectLoop_no_monitorFailure nodeName nodeIp att fuel (i + 1) st
    cases hatt : att i with
    | raised m => simp [reconnectLoop, hatt, ih]
    | fetched s =>
      by_cases hs : s = "connected"
      · simp [reconnectLoop, hatt, hs, isMonitorFailure]
      · simp [reconnectLoop, hatt, hs, ih]

/-- Per-node handling never emits an `ERROR_MONITOR_FAILURE`. -/
lemma processNode_no_monitorFailure (ra : Nat) (nodeName nodeIp nodeMessage : String)
    (st : NodeRecord) (cur : String) (now : ℚ) (att : Nat → AttemptResult) :
    List.countP isMonitorFailure
      (processNode ra nodeName nodeIp nodeMessage st cur now att).events = 0 := by
  obtain ⟨sv, dt⟩ := st
  simp only [processNode]
  repeat' split
  all_goals
    simp [List.countP_append, List.countP_cons, isMonitorFailure,
      reconnectLoop_no_monitorFailure]

/-- The `for node in nodes` loop never emits an `ERROR_MONITOR_FAILURE`
itself (only the surrounding handlers do). -/
lemma processNodesLoop_no_monitorFailure (ra : Nat) :
    ∀ (ns : List NodeInput) (st : String → NodeRecord),
      List.countP isMonitorFailure (processNodesLoop ra ns st).2.1 = 0
  | [], _ => rfl
  | n :: ns, st => by
    cases hf : n.fetch with
    | timeout =>
      simpa [processNodesLoop, hf] using processNodesLoop_no_monitorFailure ra ns st
    | raised m =>
      simpa [processNodesLoop, hf] using processNodesLoop_no_monitorFailure ra ns st
    | ok status =>
      cases hsf : n.storeFail with
      | some m => simp [processNodesLoop, hf, hsf]
      | none =>
        have ih := processNodesLoop_no_monitorFailure ra ns
          (fun k => if k = n.id then
            (processNode ra n.name n.ip n.message (st n.id) status n.now n.att).record
           else st k)
        simp [processNodesLoop, hf, hsf, List.countP_append, ih,
          processNode_no_monitorFailure]

/-- Splitting the node loop at a prefix that completes without an abort. -/
lemma processNodesLoop_append_ok (ra : Nat) :
    ∀ (ns1 ns2 : List NodeInput) (st st1 : String → NodeRecord) (evs1 : List Event),
      processNodesLoop ra ns1 st = (st1, evs1, none) →
      processNodesLoop ra (ns1 ++ ns2) st
        = ((processNodesLoop ra ns2 st1).1,
           evs1 ++ (processNodesLoop ra ns2 st1).2.1,
           (processNodesLoop ra ns2 st1).2.2)
  | [], ns2, st, st1, evs1, h => by
    simp only [processNodesLoop, Prod.mk.injEq] at h
    obtain ⟨h1, h2, _⟩ := h
    subst h1; subst h2
    simp
  | n :: ns1, ns2, st, st1, evs1, h => by
    cases hf : n.fetch with
    | timeout =>
      simp only [processNodesLoop, hf] at h
      simpa [processNodesLoop, hf] using
        processNodesLoop_append_ok ra ns1 ns2 st st1 evs1 h
    | raised m =>
      simp only [processNodesLoop, hf] at h
      simpa [processNodesLoop, hf] using
        processNodesLoop_append_ok ra ns1 ns2 st st1 evs1 h
    | ok status =>
      cases hsf : n.storeFail with
      | some m => simp [processNodesLoop, hf, hsf] at h
      | none =>
        rcases hmid : processNodesLoop ra ns1
          (fun k => if k = n.id then
            (processNode ra n.name n.ip n.message (st n.id) status n.now n.att).record
           else st k) with ⟨stm, evsm, errm⟩
        simp only [processNodesLoop, hf, hsf, hmid, Prod.mk.injEq] at h
        obtain ⟨h1, h2, h3⟩ := h
        subst h1; subst h3; subst h2
        have ih := processNodesLoop_append_ok ra ns1 ns2 _ stm evsm (by rw [hmid])
        simp only [List.cons_append, processNodesLoop, hf, hsf, List.append_eq]
        rw [ih]
        simp [List.append_assoc]

/-- Reaching a node whose handling hits a store failure stops the node
loop at once: state unchanged from that point, no further events, and the
error propagates out of the loop. -/
lemma processNodesLoop_store_failure (ra : Nat) (n : NodeInput) (ns : List NodeInput)
    (st : String → NodeRecord) (s m : String)
    (hf : n.fetch = FetchResult.ok s) (hsf : n.storeFail = some m) :
    processNodesLoop ra (n :: ns) st = (st, [], some m) := by
  simp [processNodesLoop, hf, hsf]

/-- Counterexample to C3: a store failure escaping the per-node loop is
converted by the line-224 handler into exactly one `MonitorFailure`
notification, but the next cycle begins immediately — the monitor does
not sleep the cycle interval. -/
theorem toplevel_handler_skips_sleep :
    (monitorCycle 3 (fun _ => ⟨none, none⟩)
      (ListNodesResult.ok [⟨"1", "A", "ip1", "m1", FetchResult.ok "error", some "boom", 0,
        fun _ => AttemptResult.raised "e"⟩])).sleptFullInterval = false ∧
    countMonitorFailure (monitorCycle 3 (fun _ => ⟨none, none⟩)
      (ListNodesResult.ok [⟨"1", "A", "ip1", "m1", FetchResult.ok "error", some "boom", 0,
        fun _ => AttemptResult.raised "e"⟩])).events = 1 :=
  ⟨by decide, by decide⟩

/-- C3 (amended): every error not handled at node level yields exactly one
`MonitorFailure` notification; a `ListNodes` failure (timeout or other) is
followed by the full cycle-interval sleep before the next cycle, while an
unhandled exception escaping the per-node loop is caught by the top-level
handler and the next cycle begins without sleeping. -/
theorem monitor_failure_conversion (ra : Nat) (st : String → NodeRecord) :
    (∀ m, monitorCycle ra st (ListNodesResult.failure m)
        = ⟨st, [Event.monitorFailure m], true⟩) ∧
    monitorCycle ra st ListNodesResult.timeout
        = ⟨st, [Event.monitorFailure "Timeout while retrieving nodes"], true⟩ ∧
    ∀ nodes st1 evs m, processNodesLoop ra nodes st = (st1, evs, some m) →
      monitorCycle ra st (ListNodesResult.ok nodes)
          = ⟨st1, evs ++ [Event.monitorFailure m], false⟩ ∧
        countMonitorFailure (evs ++ [Event.monitorFailure m]) = 1 := by
  refine ⟨fun m => rfl, rfl, ?_⟩
  intro nodes st1 evs m h
  constructor
  · simp [monitorCycle, h]
  · have hzero := processNodesLoop_no_monitorFailure ra nodes st
    rw [h] at hzero
    simp only [countMonitorFailure, List.countP_append, List.countP_cons] at hzero ⊢
    simp [isMonitorFailure] at hzero ⊢
    exact hzero

/-- Witness for the amended C3: one node whose handling hits a store
failure; the cycle emits one `MonitorFailure` and does not sleep. -/
theorem monitor_failure_conversion_witness :
    (monitorCycle 2 (fun _ => ⟨none, none⟩)
        (ListNodesResult.ok [⟨"1", "A", "ip", "m", FetchResult.ok "error", some "down", 0,
          fun _ => AttemptResult.raised "e"⟩])
      = ⟨(fun _ => (⟨none, none⟩ : NodeRecord)),
         [] ++ [Event.monitorFailure "down"], false⟩) ∧
    countMonitorFailure ([] ++ [Event.monitorFailure "down"]) = 1 :=
  (monitor_failure_conversion 2 (fun _ => ⟨none, none⟩)).2.2
    [⟨"1", "A", "ip", "m", FetchResult.ok "error", some "down", 0,
      fun _ => AttemptResult.raised "e"⟩]
    (fun _ => ⟨none, none⟩) [] "down" rfl

/-- Counterexample to C4: with two nodes in a cycle, the first hitting a
store failure, the cycle's events show no handling of the second node —
had it been processed (as alone in a cycle) it would have alerted — and
its record is untouched; the store failure aborts the cycle instead of
being contained to the first node. -/
theorem store_failure_not_contained :
    (monitorCycle 3 (fun _ => ⟨none, none⟩)
      (ListNodesResult.ok
        [⟨"1", "A", "ip1", "m1", FetchResult.ok "error", some "redis down", 0,
          fun _ => AttemptResult.raised "e"⟩,
         ⟨"2", "B", "ip2", "m2", FetchResult.ok "error", none, 0,
          fun _ => AttemptResult.raised "e"⟩])).events
      = [Event.monitorFailure "redis down"] ∧
    (monitorCycle 3 (fun _ => ⟨none, none⟩)
      (ListNodesResult.ok
        [⟨"1", "A", "ip1", "m1", FetchResult.ok "error", some "redis down", 0,
          fun _ => AttemptResult.raised "e"⟩,
         ⟨"2", "B", "ip2", "m2", FetchResult.ok "error", none, 0,
          fun _ => AttemptResult.raised "e"⟩])).store "2" = ⟨none, none⟩ ∧
    (monitorCycle 3 (fun _ => ⟨none, none⟩)
      (ListNodesResult.ok
        [⟨"2", "B", "ip2", "m2", FetchResult.ok "error", none, 0,
          fun _ => AttemptResult.raised "e"⟩])).events
      = [Event.nodeDisconnected "B" "ip2" "m2",
         Event.nodeReconnectFailed "B" "ip2" "m2" 3] :=
  ⟨by decide, by decide, by decide⟩

/-- C4 (amended): a backing-store failure in a node's handling (outside
the reconnect attempt loop) is not contained to that node: it escapes the
per-node loop, the top-level handler emits one `MonitorFailure` for the
cycle, the next cycle starts without the full sleep, and the remaining
nodes of the cycle are not processed. -/
theorem store_failure_aborts_cycle (ra : Nat) (st st1 : String → NodeRecord)
    (ns1 : List NodeInput) (n : NodeInput) (ns2 : List NodeInput)
    (evs1 : List Event) (s m : String)
    (h1 : processNodesLoop ra ns1 st = (st1, evs1, none))
    (hf : n.fetch = FetchResult.ok s) (hsf : n.storeFail = some m) :
    monitorCycle ra st (ListNodesResult.ok (ns1 ++ n :: ns2))
      = ⟨st1, evs1 ++ [Event.monitorFailure m], false⟩ := by
  have habort := processNodesLoop_store_failure ra n ns2 st1 s m hf hsf
  have happ := processNodesLoop_append_ok ra ns1 (n :: ns2) st st1 evs1 h1
  rw [habort] at happ
  simp only [List.append_nil] at happ
  simp [monitorCycle, happ]

/-- Witness for the amended C4: empty prefix, one store-failing node, one
node after it. -/
theorem store_failure_aborts_cycle_witness :
    monitorCycle 3 (fun _ => ⟨none, none⟩)
      (ListNodesResult.ok
        ([] ++ (⟨"1", "A", "ip1", "m1", FetchResult.ok "error", some "redis down", 0,
          fun _ => AttemptResult.raised "e"⟩ : NodeInput) ::
         [⟨"2", "B", "ip2", "m2", FetchResult.ok "error", none, 0,
           fun _ => AttemptResult.raised "e"⟩]))
      = ⟨(fun _ => (⟨none, none⟩ : NodeRecord)),
         [] ++ [Event.monitorFailure "redis down"], false⟩ :=
  store_failure_aborts_cycle 3 (fun _ => ⟨none, none⟩) (fun _ => ⟨none, none⟩) []
    ⟨"1", "A", "ip1", "m1", FetchResult.ok "error", some "redis down", 0,
      fun _ => AttemptResult.raised "e"⟩
    [⟨"2", "B", "ip2", "m2", FetchResult.ok "error", none, 0,
      fun _ => AttemptResult.raised "e"⟩]
    [] "error" "redis down" rfl rfl rfl

end NodeMonitorModel
